import Mathlib

/-!
Verification of the compute-perf-estimation pipeline: a shallow embedding of
the extraction / alignment / statistics / comparison scripts
(`process.py`, `analyze_statistics.py`, `calculate_std_percentage.py`,
`compare_implementations.py`), together with theorems settling the spec's
testable properties against the code.

Numbers: trace timestamps are integers (`Int`); statistics are rationals
(`ℚ`), the exact-arithmetic counterpart of the scripts' floats; a float
`NaN` (numpy's missing value) is modelled as `Option.none`.
-/

namespace PerfEst

/-! ## Event data model (`process.py`) -/

/-- One parsed line of a raw trace file, after the column renaming in
`transform_profile_file`. -/
structure EventRecord where
  pcie : Nat
  core_x : Nat
  core_y : Nat
  risc_type : String
  timer_id : Nat
  time_cycles : Int
  data : Int
  run_host_id : Nat
  zone_name : String
  type : String
  source_line : Nat
  source_file : String
  meta_data : String
  deriving DecidableEq, Repr

/-- The composite group-by key of `transform_profile_file`:
`['pcie', 'core_x', 'core_y', 'risc_type', 'run_host_id']`. -/
structure MeasurementPointKey where
  pcie : Nat
  core_x : Nat
  core_y : Nat
  risc_type : String
  run_host_id : Nat
  deriving DecidableEq, Repr

def eventKey (e : EventRecord) : MeasurementPointKey :=
  ⟨e.pcie, e.core_x, e.core_y, e.risc_type, e.run_host_id⟩

/-- Selection `group['zone_name'] == 'TRISC-KERNEL' & group['type'] == 'ZONE_START'`. -/
def is_kernel_start (e : EventRecord) : Bool :=
  e.zone_name == "TRISC-KERNEL" && e.type == "ZONE_START"

/-- Selection `group['zone_name'] == 'TRISC-KERNEL' & group['type'] == 'ZONE_END'`. -/
def is_kernel_end (e : EventRecord) : Bool :=
  e.zone_name == "TRISC-KERNEL" && e.type == "ZONE_END"

/-- pandas `Series.max` over the `time_cycles` column.  It is only ever
applied to the nonempty selections in `calculate_kernel_length`; the `[]`
case is an arbitrary total-function default. -/
def seriesMax : List Int → Int
  | [] => 0
  | h :: t => t.foldl max h

/-- Function `calculate_kernel_length` of `process.py`: select the `TRISC-KERNEL`
`ZONE_START` / `ZONE_END` rows of the group; zero or duplicated markers give
0; otherwise the latest end time minus the latest start time. -/
def calculate_kernel_length (group : List EventRecord) : Int :=
  if (group.filter is_kernel_start).length = 0 ∨
      (group.filter is_kernel_end).length = 0 then 0
  else if 1 < (group.filter is_kernel_start).length ∨
      1 < (group.filter is_kernel_end).length then 0
  else seriesMax ((group.filter is_kernel_end).map (·.time_cycles)) -
    seriesMax ((group.filter is_kernel_start).map (·.time_cycles))

/-- Whether `pat` is a leading segment of `s` (character lists). -/
def listStartsWith : List Char → List Char → Bool
  | [], _ => true
  | _ :: _, [] => false
  | a :: as, b :: bs => a == b && listStartsWith as bs

/-- Whether `pat` occurs contiguously somewhere inside `s` (character lists). -/
def listContainsSub (pat : List Char) : List Char → Bool
  | [] => pat.isEmpty
  | b :: bs => listStartsWith pat (b :: bs) || listContainsSub pat bs

/-- Test `df['risc_type'].str.contains('TRISC', na=False)`: substring search. -/
def containsTRISC (s : String) : Bool :=
  listContainsSub "TRISC".toList s.toList

/-- Function `extract_cb_metrics`: the `data`-column sum of a zone's rows when the
selection is nonempty, absent (`none`) when it is empty. -/
def cb_metric (df : List EventRecord) (zone : String) : Option Int :=
  let sel := df.filter (fun e => e.zone_name == zone)
  if sel.isEmpty then none else some ((sel.map (·.data)).sum)

/-- One row of the extractor's output table. -/
structure KernelMetricRow where
  key : MeasurementPointKey
  kernel_length : Int
  cb_wait_front : Option Int
  cb_reserve_back : Option Int
  deriving DecidableEq, Repr

/-- The rows of the pandas group of key `k` within dataframe `df`. -/
def groupOf (df : List EventRecord) (k : MeasurementPointKey) : List EventRecord :=
  df.filter (fun e => eventKey e == k)

/-- The distinct group keys of `df`.  pandas `groupby` sorts keys; we keep
first-occurrence order, which changes only row order, never row membership,
and none of the verified properties depend on row order. -/
def rowKeys (df : List EventRecord) : List MeasurementPointKey :=
  (df.map eventKey).dedup

/-- The `risc_type` filter of `transform_profile_file` (drop BRISC and
NCRISC, keep TRISC). -/
def parsed_events (events : List EventRecord) : List EventRecord :=
  events.filter (fun e => containsTRISC e.risc_type)

/-- The group keys kept by `transform_profile_file`: those whose group
contains the `TRISC-KERNEL` zone. -/
def kernel_keys (df : List EventRecord) : List MeasurementPointKey :=
  (rowKeys df).filter
    (fun k => (groupOf df k).any (fun e => e.zone_name == "TRISC-KERNEL"))

/-- The core of `transform_profile_file` after the columns are assigned:
keep the TRISC rows, group them by `MeasurementPointKey`, drop groups with
no `TRISC-KERNEL` zone, and reduce each remaining group to a
`KernelMetricRow`. -/
def transform_rows (events : List EventRecord) : List KernelMetricRow :=
  (kernel_keys (parsed_events events)).map (fun k =>
    { key := k
      kernel_length := calculate_kernel_length (groupOf (parsed_events events) k)
      cb_wait_front :=
        cb_metric (groupOf (parsed_events events) k) "CB-COMPUTE-WAIT-FRONT"
      cb_reserve_back :=
        cb_metric (groupOf (parsed_events events) k) "CB-COMPUTE-RESERVE-BACK" })

/-! ## File-level parsing (`transform_profile_file` / `transform_directory`) -/

/-- The fixed 13-column schema of `transform_profile_file`. -/
def expected_columns : List String :=
  ["pcie", "core_x", "core_y", "risc_type", "timer_id",
   "time_cycles", "data", "run_host_id", "zone_name", "type",
   "source_line", "source_file", "meta_data"]

/-- The ways `transform_profile_file` gives up on a file. -/
inductive ProcessFailure where
  /-- Case where `pd.read_csv` raised; caught by the enclosing `except`. -/
  | readError
  /-- the explicit fewer-columns warning followed by `return False`. -/
  | fewerColumns
  /-- pandas raised a length mismatch on the column rename; caught. -/
  | renameError
  deriving DecidableEq, Repr

/-- The column-assignment step of `transform_profile_file`: the guard
`len(df.columns) >= len(expected_columns)` warns and bails out when the file
has fewer than 13 columns, and the rename
`df.columns = expected_columns[:len(df.columns)]` raises a pandas length
mismatch when the name list (at most 13 names) does not cover every column. -/
def assign_columns (ncols : Nat) : Except ProcessFailure (List String) :=
  if expected_columns.length ≤ ncols then
    let names := expected_columns.take ncols
    if names.length = ncols then Except.ok names
    else Except.error ProcessFailure.renameError
  else Except.error ProcessFailure.fewerColumns

/-- One raw trace file as the core sees it: its column count, its parsed
data rows, and whether reading it raises (I/O and CSV errors are opaque to
the embedding). -/
structure RawFile where
  ncols : Nat
  events : List EventRecord
  readFails : Bool
  deriving Repr

/-- The body of `transform_profile_file` inside its `try`: read the file,
assign the columns, and emit the reduced rows. -/
def transform_profile_body (f : RawFile) :
    Except ProcessFailure (List KernelMetricRow) :=
  if f.readFails then Except.error ProcessFailure.readError
  else match assign_columns f.ncols with
    | Except.ok _ => Except.ok (transform_rows f.events)
    | Except.error e => Except.error e

/-- Function `transform_profile_file`: every failure of the body — the explicit
early `return False` and every caught exception alike — becomes the return
value `False`; success is `True`. -/
def transform_profile_file (f : RawFile) : Bool :=
  match transform_profile_body f with
  | Except.ok _ => true
  | Except.error _ => false

/-- Function `transform_directory`: attempt every file in order and count the
successes. -/
def transform_directory (files : List RawFile) : Nat :=
  files.foldl (fun acc f => if transform_profile_file f then acc + 1 else acc) 0

/-! ## Statistics (`analyze_statistics.py`) -/

/-- One row of a unified per-category table, as loaded by
`analyze_category` (identity columns plus the `KERNEL_LENGTH` metric). -/
structure MetricRow where
  run_id : Nat
  host_id : Nat
  pcie : Nat
  core_x : Nat
  core_y : Nat
  risc_type : String
  kernel_length : ℚ
  deriving DecidableEq, Repr

/-- One output row of `analyze_category`.  The script's
`KERNEL_LENGTH_STD` column stores the square root of
`kernel_length_std_sq`; we track the radicand exactly (the square root is
order-preserving and is missing exactly when the radicand is), with `none`
standing for numpy's `NaN`. -/
structure StatisticsRow where
  run_id : Nat
  host_id : Nat
  pcie : Nat
  core_x : Nat
  core_y : Nat
  risc_type : String
  kernel_length_avg : ℚ
  kernel_length_std_sq : Option ℚ
  deriving DecidableEq, Repr

/-- Mean `np.mean`: arithmetic mean.  Only applied to nonempty samples in the
pipeline (the `[]` value 0 is a total-function default; numpy would give
`NaN`). -/
def npMean (xs : List ℚ) : ℚ := xs.sum / xs.length

/-- Sum of squared deviations from the mean. -/
def sumSqDev (xs : List ℚ) : ℚ :=
  (xs.map (fun x => (x - npMean xs) ^ 2)).sum

/-- Variance `np.std(·, ddof=1) ** 2`: the Bessel-corrected sample variance.  For a
sample of length 1 numpy evaluates `0/0 = NaN` (and for length 0 the mean
itself is already `NaN`), modelled as `none`. -/
def npVarDdof1 (xs : List ℚ) : Option ℚ :=
  if xs.length ≤ 1 then none
  else some (sumSqDev xs / ((xs.length : ℚ) - 1))

/-- The `KERNEL_LENGTH` values at row position `i` across the runs, in run
order (`kernel_matrix[i]` after the transpose). -/
def columnAt (runs : List (List MetricRow)) (i : Nat) : List ℚ :=
  runs.filterMap (fun df => df[i]?.map (·.kernel_length))

/-- Build one statistics row from the reference run's row and the
cross-run sample at its position. -/
def statRowOf (m : MetricRow) (vals : List ℚ) : StatisticsRow :=
  { run_id := m.run_id, host_id := m.host_id, pcie := m.pcie,
    core_x := m.core_x, core_y := m.core_y, risc_type := m.risc_type,
    kernel_length_avg := npMean vals,
    kernel_length_std_sq := npVarDdof1 vals }

/-- Function `analyze_category` on the loaded run tables: no runs gives no result;
a run whose row count differs from the first (reference) run's aborts the
category with no result; otherwise one `StatisticsRow` per row position,
identity columns copied from the reference run. -/
def analyze_category : List (List MetricRow) → Option (List StatisticsRow)
  | [] => none
  | ref :: rest =>
    if (ref :: rest).all (fun df => df.length = ref.length) then
      some (ref.enum.map (fun p => statRowOf p.2 (columnAt (ref :: rest) p.1)))
    else none

/-! ## Std percentage (`calculate_std_percentage.py`) -/

/-- Round-half-to-even to an integer, numpy's rounding mode. -/
def roundHalfEven (q : ℚ) : ℤ :=
  let f := ⌊q⌋
  let r := q - f
  if r < 1 / 2 then f
  else if 1 / 2 < r then f + 1
  else if f % 2 = 0 then f else f + 1

/-- pandas `Series.round(4)`. -/
def round4 (q : ℚ) : ℚ := (roundHalfEven (q * 10000) : ℚ) / 10000

/-- The per-row computation of `calculate_std_percentage`:
`np.where(avg != 0, std / avg * 100, nan)` followed by `.round(4)`.  A
`NaN` std (`none`) propagates through the division and the rounding. -/
def calculate_std_percentage_row (avg : ℚ) (std : Option ℚ) : Option ℚ :=
  if avg ≠ 0 then std.map (fun s => round4 (s / avg * 100)) else none

/-! ## Comparison (`compare_implementations.py`) -/

/-- Function `calculate_percentage_slowdown`.  A `NaN` baseline fails the
`baseline_value == 0` test and then poisons the formula; a zero baseline
returns `NaN` explicitly; a `NaN` comparison value poisons the formula. -/
def calculate_percentage_slowdown (b c : Option ℚ) : Option ℚ :=
  match b with
  | none => none
  | some bv =>
    if bv = 0 then none
    else match c with
      | none => none
      | some cv => some ((cv - bv) / bv * 100)

/-- The `(avg, std)` pair of one statistics row, as read back from a
statistics CSV (`std` is empty/NaN when a single run contributed). -/
structure StatEntry where
  avg : ℚ
  std : Option ℚ
  deriving DecidableEq, Repr

/-- One row of `implementation_comparison.csv`. -/
structure ComparisonRow where
  baseline_mean : ℚ
  baseline_std : Option ℚ
  counter_mean : ℚ
  counter_std : Option ℚ
  counter_mean_slowdown_pct : Option ℚ
  counter_std_change_pct : Option ℚ
  profiler_mean : ℚ
  profiler_std : Option ℚ
  profiler_mean_slowdown_pct : Option ℚ
  profiler_std_change_pct : Option ℚ
  deriving DecidableEq, Repr

/-- Build one comparison row from aligned baseline / counter / profiler
entries, exactly the column formulas of `compare_implementations`. -/
def comparisonRowOf (b c p : StatEntry) : ComparisonRow :=
  { baseline_mean := b.avg
    baseline_std := b.std
    counter_mean := c.avg
    counter_std := c.std
    counter_mean_slowdown_pct :=
      calculate_percentage_slowdown (some b.avg) (some c.avg)
    counter_std_change_pct := calculate_percentage_slowdown b.std c.std
    profiler_mean := p.avg
    profiler_std := p.std
    profiler_mean_slowdown_pct :=
      calculate_percentage_slowdown (some b.avg) (some p.avg)
    profiler_std_change_pct := calculate_percentage_slowdown b.std p.std }

/-- Function `compare_implementations`: equal row counts are required (else no
result), then the three tables are combined row by row. -/
def compare_implementations (b c p : List StatEntry) :
    Option (List ComparisonRow) :=
  if b.length = c.length ∧ b.length = p.length then
    some ((b.zip (c.zip p)).map (fun x => comparisonRowOf x.1 x.2.1 x.2.2))
  else none

/-! ## Input consistency and concrete sample inputs -/

/-- A group's zone pairing is time-consistent: whenever it has exactly one
`TRISC-KERNEL` start and exactly one end, the end is not earlier than the
start.  (Degenerate pairings are vacuously consistent — the extractor forces
their duration to 0.) -/
def group_consistent (group : List EventRecord) : Bool :=
  match group.filter is_kernel_start, group.filter is_kernel_end with
  | [s], [e] => s.time_cycles ≤ e.time_cycles
  | _, _ => true

/-- A `TRISC-KERNEL` `ZONE_START` at cycle 1000 on
`(pcie=0, core_x=1, core_y=2, risc_type=TRISC0, run_host_id=5)`. -/
def exStart : EventRecord :=
  { pcie := 0, core_x := 1, core_y := 2, risc_type := "TRISC0", timer_id := 0,
    time_cycles := 1000, data := 0, run_host_id := 5,
    zone_name := "TRISC-KERNEL", type := "ZONE_START",
    source_line := 10, source_file := "kernel.cpp", meta_data := "" }

/-- The matching `ZONE_END` at cycle 1500. -/
def exEnd : EventRecord := { exStart with type := "ZONE_END", time_cycles := 1500 }

/-- A duplicate `ZONE_START` at cycle 1100. -/
def exStartDup : EventRecord := { exStart with time_cycles := 1100 }

/-- A `ZONE_END` that precedes the start (cycle 500): an inconsistent
input. -/
def exEndEarly : EventRecord :=
  { exStart with type := "ZONE_END", time_cycles := 500 }

/-- A TRISC event on another core whose group has no `TRISC-KERNEL`
zone. -/
def exCB : EventRecord :=
  { exStart with
    core_x := 3
    zone_name := "CB-COMPUTE-WAIT-FRONT"
    data := 42 }

/-- The key of `exCB`'s group. -/
def exKeyB : MeasurementPointKey := eventKey exCB

/-- Two groups: one with a kernel zone, one (`exKeyB`) without. -/
def exMixEvents : List EventRecord := [exStart, exEnd, exCB]

/-- A well-formed 13-column file. -/
def exOkFile : RawFile := { ncols := 13, events := [exStart, exEnd], readFails := false }

/-- A file whose read raises. -/
def exBadFile : RawFile := { ncols := 13, events := [], readFails := true }

/-- Another well-formed file. -/
def exOkFile2 : RawFile := { ncols := 13, events := [], readFails := false }

/-- A unified-table row with kernel length 500. -/
def exM1 : MetricRow :=
  { run_id := 1, host_id := 5, pcie := 0, core_x := 1, core_y := 2,
    risc_type := "TRISC0", kernel_length := 500 }

/-- The same measurement point in a second run, kernel length 520. -/
def exM2 : MetricRow := { exM1 with run_id := 2, kernel_length := 520 }

/-- An extra row making a second run one row longer. -/
def exM2b : MetricRow := { exM1 with run_id := 2, kernel_length := 530 }

/-- The statistics row produced for `[[exM1], [exM2]]`. -/
def exStat0 : StatisticsRow := statRowOf exM1 (columnAt [[exM1], [exM2]] 0)

/-- A baseline statistics entry. -/
def exSEBase : StatEntry := { avg := 100, std := some 10 }

/-- A counter statistics entry, 20% slower. -/
def exSECounter : StatEntry := { avg := 120, std := some 20 }

/-- A profiler statistics entry, 20% faster, with a missing std. -/
def exSEProfiler : StatEntry := { avg := 80, std := none }

end PerfEst

/-! ## Theorems -/

namespace PerfEst

/-- C1: for a group whose `TRISC-KERNEL` subset has exactly one
`ZONE_START` (`s`) and exactly one `ZONE_END` (`e`), the extracted duration
is `e.time_cycles - s.time_cycles`, unclamped: it is negative exactly when
the end timestamp is smaller than the start timestamp. -/
theorem calculate_kernel_length_single_pair (group : List EventRecord)
    (s e : EventRecord)
    (hs : group.filter is_kernel_start = [s])
    (he : group.filter is_kernel_end = [e]) :
    calculate_kernel_length group = e.time_cycles - s.time_cycles ∧
      (calculate_kernel_length group < 0 ↔ e.time_cycles < s.time_cycles) := by
  unfold calculate_kernel_length
  rw [hs, he]
  simp [seriesMax]

/-- Witness for C1 on the concrete pair (start at 1000, end at 1500). -/
theorem calculate_kernel_length_single_pair_witness :
    calculate_kernel_length [exStart, exEnd] =
        exEnd.time_cycles - exStart.time_cycles ∧
      (calculate_kernel_length [exStart, exEnd] < 0 ↔
        exEnd.time_cycles < exStart.time_cycles) :=
  calculate_kernel_length_single_pair [exStart, exEnd] exStart exEnd
    (by decide) (by decide)

/-- C2: a group whose `TRISC-KERNEL` subset has zero or more than one
`ZONE_START`, or zero or more than one `ZONE_END`, yields duration 0,
whatever the other fields hold. -/
theorem calculate_kernel_length_degenerate_zero (group : List EventRecord)
    (h : (group.filter is_kernel_start).length = 0 ∨
      (group.filter is_kernel_end).length = 0 ∨
      1 < (group.filter is_kernel_start).length ∨
      1 < (group.filter is_kernel_end).length) :
    calculate_kernel_length group = 0 := by
  unfold calculate_kernel_length
  by_cases h0 : (group.filter is_kernel_start).length = 0 ∨
      (group.filter is_kernel_end).length = 0
  · rw [if_pos h0]
  · rw [if_neg h0, if_pos ?_]
    rcases h with h | h | h | h
    · exact absurd (Or.inl h) h0
    · exact absurd (Or.inr h) h0
    · exact Or.inl h
    · exact Or.inr h

/-- Witness for C2 on a group with a duplicated `ZONE_START`. -/
theorem calculate_kernel_length_degenerate_zero_witness :
    calculate_kernel_length [exStart, exStartDup, exEnd] = 0 :=
  calculate_kernel_length_degenerate_zero [exStart, exStartDup, exEnd]
    (Or.inr (Or.inr (Or.inl (by decide))))

/-- C7: a measurement-point group of the parsed (TRISC-filtered) events
that contains no `TRISC-KERNEL` event contributes no row to the extractor's
output. -/
theorem transform_rows_no_kernel_zone_no_row (events : List EventRecord)
    (k : MeasurementPointKey)
    (h : ∀ e ∈ groupOf (parsed_events events) k, e.zone_name ≠ "TRISC-KERNEL") :
    ∀ row ∈ transform_rows events, row.key ≠ k := by
  intro row hrow hk
  unfold transform_rows at hrow
  obtain ⟨k', hk', hrowk⟩ := List.mem_map.mp hrow
  have hkey : row.key = k' := by rw [← hrowk]
  obtain ⟨-, e, he, hez⟩ :
      k' ∈ rowKeys (parsed_events events) ∧
        ∃ x ∈ groupOf (parsed_events events) k',
          x.zone_name = "TRISC-KERNEL" := by
    simpa [kernel_keys, List.mem_filter] using hk'
  exact h e (by rwa [← hkey, hk] at he) hez

/-- Witness for C7: `exKeyB`'s group has only a CB zone, so every emitted
row carries a different key. -/
theorem transform_rows_no_kernel_zone_no_row_witness :
    (transform_rows exMixEvents).all
      (fun row => decide (row.key ≠ exKeyB)) = true :=
  List.all_eq_true.mpr (fun row hrow =>
    decide_eq_true
      (transform_rows_no_kernel_zone_no_row exMixEvents exKeyB
        (by decide) row hrow))

/-- C9 fails on the code as stated: an inconsistent trace (end before
start) is reduced, unclamped, to a negative `kernel_length`. -/
theorem transform_rows_negative_kernel_length :
    ∃ row ∈ transform_rows [exStart, exEndEarly], row.kernel_length < 0 := by
  decide

/-- If every well-paired group is time-consistent, the extracted duration
is non-negative. -/
theorem kernel_length_nonneg_of_consistent (g : List EventRecord)
    (h : group_consistent g = true) : 0 ≤ calculate_kernel_length g := by
  unfold calculate_kernel_length
  by_cases h0 : (g.filter is_kernel_start).length = 0 ∨
      (g.filter is_kernel_end).length = 0
  · rw [if_pos h0]
  · rw [if_neg h0]
    by_cases h1 : 1 < (g.filter is_kernel_start).length ∨
        1 < (g.filter is_kernel_end).length
    · rw [if_pos h1]
    · rw [if_neg h1]
      push_neg at h0 h1
      obtain ⟨s, hs⟩ := List.length_eq_one.mp
        (by omega : (g.filter is_kernel_start).length = 1)
      obtain ⟨e, he⟩ := List.length_eq_one.mp
        (by omega : (g.filter is_kernel_end).length = 1)
      unfold group_consistent at h
      rw [hs, he] at h ⊢
      simp only [decide_eq_true_eq] at h
      simp [seriesMax]
      omega

/-- C9 amended: every `KernelMetricRow` emitted by the extractor has a
non-negative `kernel_length` provided every group of the parsed events is
time-consistent (single end not earlier than single start); without that
assumption the value is an unclamped integer and can be negative. -/
theorem transform_rows_nonneg_of_consistent (events : List EventRecord)
    (h : (rowKeys (parsed_events events)).all
      (fun k => group_consistent (groupOf (parsed_events events) k)) = true) :
    ∀ row ∈ transform_rows events, 0 ≤ row.kernel_length := by
  intro row hrow
  unfold transform_rows at hrow
  obtain ⟨k', hk', hrowk⟩ := List.mem_map.mp hrow
  obtain ⟨hmem, -⟩ :
      k' ∈ rowKeys (parsed_events events) ∧
        ∃ x ∈ groupOf (parsed_events events) k',
          x.zone_name = "TRISC-KERNEL" := by
    simpa [kernel_keys, List.mem_filter] using hk'
  have hcons := List.all_eq_true.mp h k' hmem
  have : 0 ≤ calculate_kernel_length (groupOf (parsed_events events) k') :=
    kernel_length_nonneg_of_consistent _ hcons
  rw [← hrowk]
  exact this

/-- Witness for the amended C9 on the consistent pair (1000, 1500). -/
theorem transform_rows_nonneg_of_consistent_witness :
    (transform_rows [exStart, exEnd]).all
      (fun row => decide (0 ≤ row.kernel_length)) = true :=
  List.all_eq_true.mpr (fun row hrow =>
    decide_eq_true
      (transform_rows_nonneg_of_consistent [exStart, exEnd]
        (by decide) row hrow))

/-- Value of `transform_directory`'s running count, started from `n`. -/
theorem transform_directory_go (files : List RawFile) (n : Nat) :
    files.foldl
        (fun acc f => if transform_profile_file f then acc + 1 else acc) n =
      n + transform_directory files := by
  induction files generalizing n with
  | nil => simp [transform_directory]
  | cons f fs ih =>
    simp only [transform_directory, List.foldl_cons]
    rw [ih, ih]
    cases h : transform_profile_file f
    · rw [if_neg (by simp), if_neg (by simp)]
      omega
    · rw [if_pos rfl, if_pos rfl]
      omega

/-- C10: `transform_profile_file` is a total Boolean function — the body's
failures, caught exceptions and the explicit fewer-columns bailout alike,
all surface as the return value `False` — and the directory loop treats
each file independently: one file's failure changes nothing about how the
remaining files are counted. -/
theorem transform_directory_isolates_failures
    (fs₁ : List RawFile) (f : RawFile) (fs₂ : List RawFile) :
    transform_directory (fs₁ ++ f :: fs₂) =
        transform_directory fs₁ +
          (if transform_profile_file f then 1 else 0) +
          transform_directory fs₂ ∧
      (∀ e, transform_profile_body f = Except.error e →
        transform_profile_file f = false) ∧
      (∀ rows, transform_profile_body f = Except.ok rows →
        transform_profile_file f = true) := by
  refine ⟨?_, ?_, ?_⟩
  · show (fs₁ ++ f :: fs₂).foldl _ 0 = _
    rw [List.foldl_append, List.foldl_cons, transform_directory_go,
      transform_directory_go]
    cases h : transform_profile_file f
    · rw [if_neg (by simp), if_neg (by simp)]
      omega
    · rw [if_pos rfl, if_pos rfl]
      omega
  · intro e he
    unfold transform_profile_file
    rw [he]
  · intro rows hr
    unfold transform_profile_file
    rw [hr]

/-- Witness for C10: a raising file between two good ones returns `False`
and leaves the count decomposition intact. -/
theorem transform_directory_isolates_failures_witness :
    (transform_directory ([exOkFile] ++ exBadFile :: [exOkFile2]) =
        transform_directory [exOkFile] +
          (if transform_profile_file exBadFile then 1 else 0) +
          transform_directory [exOkFile2]) ∧
      transform_profile_file exBadFile = false :=
  ⟨(transform_directory_isolates_failures [exOkFile] exBadFile [exOkFile2]).1,
   (transform_directory_isolates_failures [exOkFile] exBadFile [exOkFile2]).2.1
     ProcessFailure.readError rfl⟩

/-- The column-assignment step succeeds exactly on the full 13-column
schema. -/
theorem assign_columns_ok_iff (n : Nat) :
    (∃ names, assign_columns n = Except.ok names) ↔
      n = expected_columns.length := by
  unfold assign_columns
  by_cases h : expected_columns.length ≤ n
  · rw [if_pos h]
    by_cases h2 : (expected_columns.take n).length = n
    · rw [if_pos h2]
      rw [List.length_take] at h2
      constructor
      · intro; omega
      · intro; exact ⟨_, rfl⟩
    · rw [if_neg h2]
      rw [List.length_take] at h2
      constructor
      · rintro ⟨names, hn⟩; cases hn
      · intro hn; omega
  · rw [if_neg h]
    constructor
    · rintro ⟨names, hn⟩; cases hn
    · intro hn; omega

/-- C8 fails on the code as stated: a file with 12 of the 13 schema columns
(only the trailing `meta_data` absent) is rejected — `transform_profile_file`
warns and returns `False` instead of mapping the first 12 columns. -/
theorem twelve_columns_rejected :
    assign_columns 12 = Except.error ProcessFailure.fewerColumns ∧
      transform_profile_file
        { ncols := 12, events := [exStart, exEnd], readFails := false } =
        false :=
  ⟨rfl, rfl⟩

/-- C8 amended: the column-mapping step succeeds only when the file carries
exactly the 13 schema columns; with fewer columns the function warns and
returns no output, and with more the pandas rename raises (caught, again no
output).  Consequently `transform_profile_file` succeeds exactly on
readable 13-column files. -/
theorem column_mapping_requires_full_schema (f : RawFile) :
    ((∃ names, assign_columns f.ncols = Except.ok names) ↔
      f.ncols = expected_columns.length) ∧
      (f.ncols < expected_columns.length →
        assign_columns f.ncols = Except.error ProcessFailure.fewerColumns) ∧
      (expected_columns.length < f.ncols →
        assign_columns f.ncols = Except.error ProcessFailure.renameError) ∧
      (transform_profile_file f = true ↔
        f.readFails = false ∧ f.ncols = expected_columns.length) := by
  refine ⟨assign_columns_ok_iff f.ncols, ?_, ?_, ?_⟩
  · intro hlt
    unfold assign_columns
    rw [if_neg (by omega)]
  · intro hgt
    unfold assign_columns
    rw [if_pos (by omega), if_neg (by rw [List.length_take]; omega)]
  · unfold transform_profile_file transform_profile_body
    cases hrf : f.readFails
    · cases hac : assign_columns f.ncols with
      | ok names =>
        simp [hac]
        exact (assign_columns_ok_iff f.ncols).mp ⟨names, hac⟩
      | error e =>
        simp [hac]
        intro hn
        obtain ⟨names, hn'⟩ := (assign_columns_ok_iff f.ncols).mpr hn
        rw [hn'] at hac
        cases hac
    · simp

/-- Witness for C8's amended theorem at a concrete 12-column file. -/
theorem column_mapping_requires_full_schema_witness :
    assign_columns (12 : Nat) = Except.error ProcessFailure.fewerColumns :=
  (column_mapping_requires_full_schema
    { ncols := 12, events := [], readFails := false }).2.1 (by decide)

end PerfEst

namespace PerfEst

/-- When position `i` exists in every run, the cross-run sample at `i` has
one value per run. -/
theorem columnAt_length (runs : List (List MetricRow)) (i : Nat)
    (h : ∀ df ∈ runs, i < df.length) :
    (columnAt runs i).length = runs.length := by
  induction runs with
  | nil => simp [columnAt]
  | cons df rest ih =>
    have hd : i < df.length := h df (by simp)
    have hrest : ∀ df ∈ rest, i < df.length := fun d hd' => h d (by simp [hd'])
    simp only [columnAt, List.filterMap_cons] at ih ⊢
    rw [List.getElem?_eq_getElem hd]
    simp [ih hrest]

/-- Value of `analyze_category` under the row-count precondition: the explicit
output table. -/
theorem analyze_category_eq_some (ref : List MetricRow)
    (rest : List (List MetricRow))
    (h : ∀ df ∈ ref :: rest, df.length = ref.length) :
    analyze_category (ref :: rest) =
      some (ref.enum.map
        (fun p => statRowOf p.2 (columnAt (ref :: rest) p.1))) := by
  rw [analyze_category, if_pos]
  exact List.all_eq_true.mpr (fun df hdf => decide_eq_true (h df hdf))

/-- C3: when all loaded runs of a category share the row count of the
reference (first) run, `analyze_category` yields exactly one output row per
row position, identity columns copied from the reference run; when any two
loaded runs disagree on row count, the category yields no result at all. -/
theorem analyze_category_row_count (ref : List MetricRow)
    (rest : List (List MetricRow)) :
    ((∀ df ∈ ref :: rest, df.length = ref.length) →
      ∃ t, analyze_category (ref :: rest) = some t ∧ t.length = ref.length ∧
        ∀ (i : Nat) (r : StatisticsRow), t[i]? = some r →
          ∃ m, ref[i]? = some m ∧ r.run_id = m.run_id ∧
            r.host_id = m.host_id ∧ r.pcie = m.pcie ∧ r.core_x = m.core_x ∧
            r.core_y = m.core_y ∧ r.risc_type = m.risc_type) ∧
      ((∃ a ∈ ref :: rest, ∃ b ∈ ref :: rest, a.length ≠ b.length) →
        analyze_category (ref :: rest) = none) := by
  constructor
  · intro h
    refine ⟨_, analyze_category_eq_some ref rest h, ?_, ?_⟩
    · rw [List.length_map, List.enum_length]
    · intro i r hr
      rw [List.getElem?_map, List.getElem?_enum] at hr
      cases hm : ref[i]? with
      | none => rw [hm] at hr; cases hr
      | some m =>
        rw [hm] at hr
        simp only [Option.map_some'] at hr
        exact ⟨m, rfl, by simp [← Option.some.inj hr, statRowOf]⟩
  · rintro ⟨a, ha, b, hb, hab⟩
    rw [analyze_category, if_neg]
    intro hall
    have := List.all_eq_true.mp hall
    exact hab ((of_decide_eq_true (this a ha)).trans
      (of_decide_eq_true (this b hb)).symm)

/-- Witness for C3: two aligned one-row runs produce a result; runs of
lengths 1 and 2 produce none. -/
theorem analyze_category_row_count_witness :
    (analyze_category [[exM1], [exM2]]).isSome = true ∧
      analyze_category [[exM1], [exM2, exM2b]] = none := by
  constructor
  · obtain ⟨t, ht, -, -⟩ :=
      (analyze_category_row_count [exM1] [[exM2]]).1 (by decide)
    rw [ht]; rfl
  · exact (analyze_category_row_count [exM1] [[exM2, exM2b]]).2
      ⟨[exM1], by simp, [exM2, exM2b], by simp, by decide⟩

end PerfEst

namespace PerfEst

/-- C4: every output row's dispersion column is the Bessel-corrected sample
statistic of its cross-run sample — the sum of squared deviations divided
by `R - 1` — and when a single run contributes (`rest = []`, so `R = 1`)
it is a missing value, never 0. -/
theorem analyze_category_std_bessel (ref : List MetricRow)
    (rest : List (List MetricRow)) (t : List StatisticsRow)
    (ht : analyze_category (ref :: rest) = some t)
    (i : Nat) (r : StatisticsRow) (hr : t[i]? = some r) :
    r.kernel_length_std_sq = npVarDdof1 (columnAt (ref :: rest) i) ∧
      (columnAt (ref :: rest) i).length = (ref :: rest).length ∧
      (rest = [] → r.kernel_length_std_sq = none ∧
        r.kernel_length_std_sq ≠ some 0) ∧
      (rest ≠ [] → r.kernel_length_std_sq =
        some (sumSqDev (columnAt (ref :: rest) i) /
          (((columnAt (ref :: rest) i).length : ℚ) - 1))) := by
  rw [analyze_category] at ht
  by_cases hall : ((ref :: rest).all fun df => decide (df.length = ref.length)) = true
  swap
  · rw [if_neg hall] at ht; cases ht
  rw [if_pos hall] at ht
  have hlen : ∀ df ∈ ref :: rest, df.length = ref.length := fun df hdf =>
    of_decide_eq_true (List.all_eq_true.mp hall df hdf)
  have hti : t[i]? = some r := hr
  rw [← Option.some.inj ht] at hti
  have hi : i < ref.length := by
    have := List.getElem?_eq_some.mp hti
    obtain ⟨hlt, -⟩ := this
    rw [List.length_map, List.enum_length] at hlt
    exact hlt
  have hcol : (columnAt (ref :: rest) i).length = (ref :: rest).length :=
    columnAt_length (ref :: rest) i (fun df hdf => by rw [hlen df hdf]; exact hi)
  rw [List.getElem?_map, List.getElem?_enum,
    List.getElem?_eq_getElem hi] at hti
  simp only [Option.map_some'] at hti
  have hstd : r.kernel_length_std_sq = npVarDdof1 (columnAt (ref :: rest) i) := by
    rw [← Option.some.inj hti]
    rfl
  refine ⟨hstd, hcol, ?_, ?_⟩
  · intro hnil
    subst hnil
    have h1 : (columnAt [ref] i).length = 1 := by simpa using hcol
    rw [hstd, npVarDdof1, if_pos (by omega)]
    exact ⟨rfl, by simp⟩
  · intro hne
    have h2 : 2 ≤ (columnAt (ref :: rest) i).length := by
      rw [hcol]
      cases rest with
      | nil => exact absurd rfl hne
      | cons x xs => simp [Nat.succ_le_succ, Nat.succ_le_of_lt]
    rw [hstd, npVarDdof1, if_neg (by omega)]

/-- Witness for C4 on two runs with kernel lengths 500 and 520 (variance
200 = 14.142…²). -/
theorem analyze_category_std_bessel_witness :
    exStat0.kernel_length_std_sq =
      some (sumSqDev (columnAt [[exM1], [exM2]] 0) /
        (((columnAt [[exM1], [exM2]] 0).length : ℚ) - 1)) :=
  (analyze_category_std_bessel [exM1] [[exM2]] [exStat0] rfl 0 exStat0
    rfl).2.2.2 (List.cons_ne_nil _ _)

/-- C5 fails on the code as stated: a row whose std is already a missing
value (one contributing run) gets a missing `std_pct` even though its mean
is nonzero, so "missing iff `avg = 0`" does not hold. -/
theorem std_pct_missing_despite_nonzero_avg :
    calculate_std_percentage_row 1 none = none ∧ (1 : ℚ) ≠ 0 := by
  constructor
  · rw [calculate_std_percentage_row, if_pos (by norm_num)]
    rfl
  · norm_num

/-- C5 amended: `std_pct` is `(std/avg)·100` rounded to 4 digits whenever
`avg ≠ 0` and `std` is present, and it is missing exactly when `avg = 0`
or `std` itself is missing. -/
theorem calculate_std_percentage_row_spec (a : ℚ) (s : Option ℚ) :
    (a ≠ 0 → ∀ v : ℚ, calculate_std_percentage_row a (some v) =
      some (round4 (v / a * 100))) ∧
      (calculate_std_percentage_row a s = none ↔ a = 0 ∨ s = none) := by
  constructor
  · intro ha v
    rw [calculate_std_percentage_row, if_pos ha]
    rfl
  · by_cases ha : a = 0
    · rw [calculate_std_percentage_row, if_neg (by simpa using ha)]
      simp [ha]
    · rw [calculate_std_percentage_row, if_pos ha]
      cases s <;> simp [ha]

/-- Witness for the amended C5 at `avg = 2`, `std = 1`. -/
theorem calculate_std_percentage_row_spec_witness :
    calculate_std_percentage_row 2 (some 1) = some (round4 (1 / 2 * 100)) :=
  (calculate_std_percentage_row_spec 2 (some 1)).1 (by norm_num) 1

end PerfEst

namespace PerfEst

/-- C6: in every comparison row, the non-baseline mean-slowdown columns
follow `((C.avg − baseline.avg)/baseline.avg)·100` and are missing when the
baseline mean is 0; the std-change columns apply the very same formula to
the std columns; and the sign convention gives +20 for 100→120 and −20 for
100→80. -/
theorem compare_implementations_row_formulas (b c p : List StatEntry)
    (t : List ComparisonRow) (ht : compare_implementations b c p = some t) :
    (∀ row ∈ t,
      (row.baseline_mean = 0 → row.counter_mean_slowdown_pct = none ∧
        row.profiler_mean_slowdown_pct = none) ∧
      (row.baseline_mean ≠ 0 →
        row.counter_mean_slowdown_pct =
          some ((row.counter_mean - row.baseline_mean) /
            row.baseline_mean * 100) ∧
        row.profiler_mean_slowdown_pct =
          some ((row.profiler_mean - row.baseline_mean) /
            row.baseline_mean * 100)) ∧
      row.counter_std_change_pct =
        calculate_percentage_slowdown row.baseline_std row.counter_std ∧
      row.profiler_std_change_pct =
        calculate_percentage_slowdown row.baseline_std row.profiler_std) ∧
      calculate_percentage_slowdown (some 100) (some 120) = some 20 ∧
      calculate_percentage_slowdown (some 100) (some 80) = some (-20) ∧
      (∀ v, calculate_percentage_slowdown (some 0) v = none) := by
  refine ⟨?_, ?_, ?_, ?_⟩
  · intro row hrow
    rw [compare_implementations] at ht
    by_cases hlen : b.length = c.length ∧ b.length = p.length
    swap
    · rw [if_neg hlen] at ht; cases ht
    rw [if_pos hlen] at ht
    rw [← Option.some.inj ht] at hrow
    obtain ⟨x, -, hx⟩ := List.mem_map.mp hrow
    subst hx
    refine ⟨?_, ?_, rfl, rfl⟩
    · intro h0
      simp only [comparisonRowOf] at h0 ⊢
      simp [calculate_percentage_slowdown, h0]
    · intro h0
      simp only [comparisonRowOf] at h0 ⊢
      simp [calculate_percentage_slowdown, h0]
  · simp [calculate_percentage_slowdown]
    norm_num
  · simp [calculate_percentage_slowdown]
    norm_num
  · intro v
    simp [calculate_percentage_slowdown]

/-- Witness for C6 on the single aligned row
(baseline 100±10, counter 120±20, profiler 80 with missing std). -/
theorem compare_implementations_row_formulas_witness :
    calculate_percentage_slowdown (some 100) (some 120) = some 20 :=
  (compare_implementations_row_formulas [exSEBase] [exSECounter] [exSEProfiler]
    [comparisonRowOf exSEBase exSECounter exSEProfiler] rfl).2.1

end PerfEst
